import Mathlib

/-!
Verification development for the guu-timetable-bot ingestion pipeline.

The definitions below are a shallow embedding of the Python sources:
  app/services/fetcher_parser.py   (workbook parser, dedup, loader, sync)
  app/services/google_sheets_import.py  (shared-sheet CSV parser)
  app/handlers/admin.py            (delimited-text parser, admin import)
  app/bot.py                       (session helper, day/week formatting)
  db/models.py                     (persisted schema)

Machine-level/externally-supplied behaviour (HTTP, openpyxl, pandas,
hashlib) is modelled at its interface boundary: cell values arriving from
a workbook are an explicit datatype, download/hash outcomes are data
carried by a file job, and the pandas `to_datetime` coercions of the
delimited-text parser are function parameters.
-/

namespace GuuBot

instance exceptDecEq {ε α : Type} [DecidableEq ε] [DecidableEq α] :
    DecidableEq (Except ε α) := fun x y =>
  match x, y with
  | .ok a, .ok b =>
    if h : a = b then .isTrue (congrArg Except.ok h)
    else .isFalse (fun hc => h (Except.ok.inj hc))
  | .error a, .error b =>
    if h : a = b then .isTrue (congrArg Except.error h)
    else .isFalse (fun hc => h (Except.error.inj hc))
  | .ok _, .error _ => .isFalse (fun hc => Except.noConfusion hc)
  | .error _, .ok _ => .isFalse (fun hc => Except.noConfusion hc)

/-! ## Python string primitives -/

/-- Zero-pad a natural number to two digits (Python `%02d`, `%H`/`%M`/`%d`/`%m`). -/
def pad2 (n : Nat) : String :=
  if n < 10 then ("0") ++ toString n else toString n

/-- Zero-pad a natural number to four digits (Python `%Y` and `str(date)` years). -/
def pad4 (n : Nat) : String :=
  if n < 10 then ("000") ++ toString n
  else if n < 100 then ("00") ++ toString n
  else if n < 1000 then ("0") ++ toString n
  else toString n

/-- Longest prefix of decimal digits of a character list, with the rest. -/
def takeDigits : List Char → List Char × List Char
  | [] => ([], [])
  | c :: cs =>
    if c.isDigit then
      let r := takeDigits cs
      (c :: r.1, r.2)
    else ([], c :: cs)

/-- Numeric value of a list of decimal digits. -/
def digitsVal (ds : List Char) : Nat :=
  ds.foldl (fun a c => a * 10 + (c.toNat - 48)) 0

/-- Longest run of one fixed character at the head of a list: its length and the rest. -/
def charRun (x : Char) : List Char → Nat × List Char
  | [] => (0, [])
  | c :: cs =>
    if c = x then
      let r := charRun x cs
      (r.1 + 1, r.2)
    else (0, c :: cs)

/-- Python `str.strip()` (whitespace is modelled as the ASCII whitespace
characters, which covers every string this pipeline produces). -/
def pyStrip (s : String) : String :=
  String.mk (((s.data.dropWhile Char.isWhitespace).reverse.dropWhile Char.isWhitespace).reverse)

/-- Python `str.upper()` restricted to the alphabets this pipeline sees:
ASCII letters and the Russian alphabet (А-я plus Ё/ё). -/
def pyUpperChar (c : Char) : Char :=
  if 'a' ≤ c ∧ c ≤ 'z' then Char.ofNat (c.toNat - 32)
  else if 'а' ≤ c ∧ c ≤ 'я' then Char.ofNat (c.toNat - 32)
  else if c = 'ё' then 'Ё'
  else c

def pyUpper (s : String) : String :=
  String.mk (s.data.map pyUpperChar)

/-- Python `str.lower()` restricted to the same alphabets. -/
def pyLowerChar (c : Char) : Char :=
  if 'A' ≤ c ∧ c ≤ 'Z' then Char.ofNat (c.toNat + 32)
  else if 'А' ≤ c ∧ c ≤ 'Я' then Char.ofNat (c.toNat + 32)
  else if c = 'Ё' then 'ё'
  else c

def pyLower (s : String) : String :=
  String.mk (s.data.map pyLowerChar)

/-- Python `sep.join(xs)`. -/
def pyJoin (sep : String) : List String → String
  | [] => ("")
  | [x] => x
  | x :: y :: t => x ++ sep ++ pyJoin sep (y :: t)

/-- Substring search on character lists (Python `needle in hay`). -/
def charsContains (needle : List Char) : List Char → Bool
  | [] => needle.isEmpty
  | c :: t => needle.isPrefixOf (c :: t) || charsContains needle t

/-- Python `needle in hay` for strings. -/
def containsSub (hay needle : String) : Bool :=
  charsContains needle.data hay.data

/-- Python `int(s)` on a decimal string (sign-free, as produced by this
pipeline); `none` models the `ValueError` of a non-numeric literal. -/
def pyInt (s : String) : Option Nat :=
  let t := pyStrip s
  if t ≠ ("") ∧ t.data.all (fun c => c.isDigit) then some (digitsVal t.data) else Option.none

/-! ## Dates and times (`datetime.date`, `datetime.time`) -/

structure PyDate where
  year : Nat
  month : Nat
  day : Nat
deriving DecidableEq

def isLeapYear (y : Nat) : Bool :=
  (y % 4 == 0 && y % 100 != 0) || y % 400 == 0

def daysInMonth (y m : Nat) : Nat :=
  if m = 2 then (if isLeapYear y then 29 else 28)
  else if m = 4 ∨ m = 6 ∨ m = 9 ∨ m = 11 then 30
  else 31

/-- `datetime.date(year, month, day)`: `none` models the `ValueError`
raised on an out-of-range component. -/
def mkDate (y m d : Nat) : Option PyDate :=
  if 1 ≤ y ∧ y ≤ 9999 ∧ 1 ≤ m ∧ m ≤ 12 ∧ 1 ≤ d ∧ d ≤ daysInMonth y m
  then some ⟨y, m, d⟩ else Option.none

/-- `datetime.time(h, m)`: `none` models the `ValueError` on out-of-range values. -/
def mkTime (h m : Nat) : Option (Nat × Nat) :=
  if h ≤ 23 ∧ m ≤ 59 then some (h, m) else Option.none

/-- `d + timedelta(days=1)` (valid dates only, months/years roll over). -/
def nextDay (d : PyDate) : PyDate :=
  if d.day < daysInMonth d.year d.month then ⟨d.year, d.month, d.day + 1⟩
  else if d.month < 12 then ⟨d.year, d.month + 1, 1⟩
  else ⟨d.year + 1, 1, 1⟩

/-- `d + timedelta(days=n)`. -/
def addDays (d : PyDate) : Nat → PyDate
  | 0 => d
  | n + 1 => nextDay (addDays d n)

/-- `"{:%d.%m.%Y}".format(d)`. -/
def fmtDMY (d : PyDate) : String :=
  pad2 d.day ++ (".") ++ pad2 d.month ++ (".") ++ pad4 d.year

/-- `f"{t:%H:%M}"`. -/
def fmtHM (t : Nat × Nat) : String :=
  pad2 t.1 ++ (":") ++ pad2 t.2

/-- `datetime.strptime(s, "%H:%M").time()`: one or two digits for each
field, a literal colon, nothing left over, fields range-checked.
(`%H`/`%M` match 1-2 digits greedily; since a digit can never match the
literal `:`, greedy matching with backtracking succeeds exactly when the
whole digit run is 1-2 long and the colon follows.) -/
def strptimeHM (s : String) : Option (Nat × Nat) :=
  let p1 := takeDigits s.data
  if 1 ≤ p1.1.length ∧ p1.1.length ≤ 2 then
    match p1.2 with
    | ':' :: r1 =>
      let p2 := takeDigits r1
      if 1 ≤ p2.1.length ∧ p2.1.length ≤ 2 ∧ p2.2 = [] then
        match mkTime (digitsVal p1.1) (digitsVal p2.1) with
        | some t => some t
        | Option.none => Option.none
      else Option.none
    | _ => Option.none
  else Option.none

/-- `datetime.strptime(s, "%d.%m.%Y").date()` (google_sheets_import.py:94). -/
def strptimeDMY (s : String) : Option PyDate :=
  let p1 := takeDigits s.data
  if 1 ≤ p1.1.length ∧ p1.1.length ≤ 2 then
    match p1.2 with
    | '.' :: r1 =>
      let p2 := takeDigits r1
      if 1 ≤ p2.1.length ∧ p2.1.length ≤ 2 then
        match p2.2 with
        | '.' :: r2 =>
          let p3 := takeDigits r2
          if 1 ≤ p3.1.length ∧ p3.1.length ≤ 4 ∧ p3.2 = [] then
            mkDate (digitsVal p3.1) (digitsVal p2.1) (digitsVal p1.1)
          else Option.none
        | _ => Option.none
      else Option.none
    | _ => Option.none
  else Option.none

/-! ## Workbook cell values (openpyxl interface boundary)

`load_workbook(..., data_only=True)` hands the parser opaque cell values:
`None`, strings, and native `date`/`datetime` objects.  `pyStr` is Python
`str()` on those values. -/

inductive CellValue
  | vNone
  | vStr (s : String)
  | vDate (y m d : Nat)
  | vDateTime (y m d hh mi ss : Nat)
deriving DecidableEq

def pyStr : CellValue → String
  | CellValue.vNone => ("None")
  | CellValue.vStr s => s
  | CellValue.vDate y m d => pad4 y ++ ("-") ++ pad2 m ++ ("-") ++ pad2 d
  | CellValue.vDateTime y m d hh mi ss =>
    pad4 y ++ ("-") ++ pad2 m ++ ("-") ++ pad2 d ++ (" ") ++
      pad2 hh ++ (":") ++ pad2 mi ++ (":") ++ pad2 ss

/-- `str(cell or "")` (fetcher_parser.py:135): falsy cells (`None`, `""`)
become the empty string, anything else is `str()`-ed. -/
def cellOrEmpty : CellValue → String
  | CellValue.vNone => ("")
  | CellValue.vStr s => s
  | other => pyStr other

/-- `_safe_str` (fetcher_parser.py:124): `str(v).strip() if v is not None else ""`. -/
def safeStr : CellValue → String
  | CellValue.vNone => ("")
  | other => pyStrip (pyStr other)

/-! ## GROUP_RE (fetcher_parser.py:35)

`GROUP_RE = re.compile(r"([А-ЯA-ZЁ\-]+\d{2,3})", re.I)`, used only through
`GROUP_RE.search(...)` as a boolean test.  With `re.I` the class also
covers the lowercase letters.  `search` finds `[class]+\d{2,3}` somewhere
iff some class character is immediately followed by two digits (a match
needs at least one class character then at least two digits, and
conversely the last class character of a match is such a position). -/

def isGroupClassChar (c : Char) : Bool :=
  ('A' ≤ c && c ≤ 'Z') || ('a' ≤ c && c ≤ 'z') ||
  ('А' ≤ c && c ≤ 'я') || (c == 'Ё') || (c == 'ё') || (c == '-')

def groupTokenSearch : List Char → Bool
  | [] => false
  | c :: rest =>
    (isGroupClassChar c &&
      (match rest with
       | d1 :: d2 :: _ => d1.isDigit && d2.isDigit
       | _ => false)) || groupTokenSearch rest

/-- `any(GROUP_RE.search(str(cell or "")) for cell in row)` (fetcher_parser.py:135). -/
def rowHasGroupToken (row : List CellValue) : Bool :=
  row.any (fun cell => groupTokenSearch (cellOrEmpty cell).data)

/-! ## DATE_CELL_RE (fetcher_parser.py:36)

The pattern is anchored at both ends: a 1-2 digit group, a separator from
the class dot/hyphen/slash, a 1-2 digit group, another such separator, and
a 2-4 digit group, used through `.match`.  Digits can never match a
separator, so the greedy bounded repetitions reduce to length checks on
maximal digit runs. -/

def isDateSep (c : Char) : Bool := c == '.' || c == '-' || c == '/'

def dateCellMatch (s : String) : Option (Nat × Nat × Nat) :=
  let p1 := takeDigits s.data
  if 1 ≤ p1.1.length ∧ p1.1.length ≤ 2 then
    match p1.2 with
    | s1 :: r1 =>
      if isDateSep s1 then
        let p2 := takeDigits r1
        if 1 ≤ p2.1.length ∧ p2.1.length ≤ 2 then
          match p2.2 with
          | s2 :: r2 =>
            if isDateSep s2 then
              let p3 := takeDigits r2
              if 2 ≤ p3.1.length ∧ p3.1.length ≤ 4 ∧ p3.2 = [] then
                some (digitsVal p1.1, digitsVal p2.1, digitsVal p3.1)
              else Option.none
            else Option.none
          | [] => Option.none
        else Option.none
      else Option.none
    | [] => Option.none
  else Option.none

/-- The textual date branch of `parse_excel` (fetcher_parser.py:156-162):
match `DATE_CELL_RE`, add 2000 to a two-digit year, build `date(...)`.
`none` covers both the no-match `ValueError` and an invalid calendar date;
the caller skips the row in either case. -/
def parseDateCell (s : String) : Option PyDate :=
  match dateCellMatch s with
  | Option.none => Option.none
  | some dmy =>
    let y := if dmy.2.2 < 100 then dmy.2.2 + 2000 else dmy.2.2
    mkDate y dmy.2.1 dmy.1

/-! ## `_parse_time` (fetcher_parser.py:112-121) -/

/-- The split class `[‐–—\-]`. -/
def isSplitDash (c : Char) : Bool :=
  c == '‐' || c == '–' || c == '—' || c == '-'

/-- `re.split` on a one-character class: the segments between occurrences
(an empty input yields one empty segment, like `re.split`). -/
def pySplitClass (p : Char → Bool) : List Char → List (List Char)
  | [] => [[]]
  | c :: cs =>
    if p c then [] :: pySplitClass p cs
    else
      match pySplitClass p cs with
      | seg :: rest => (c :: seg) :: rest
      | [] => [[c]]

/-- `_parse_time`: reject empty input, `re.split` on the dash class, demand
exactly two parts, `strptime("%H:%M")` each stripped part. -/
def parseTimeCell (s : String) : Except String ((Nat × Nat) × (Nat × Nat)) :=
  if s = ("") then .error ("Empty time")
  else
    match (pySplitClass isSplitDash s.data).map String.mk with
    | [a, b] =>
      match strptimeHM (pyStrip a), strptimeHM (pyStrip b) with
      | some t1, some t2 => .ok (t1, t2)
      | _, _ => .error s
    | _ => .error s

/-! ## The `Lesson` record (fetcher_parser.py:39-49) -/

structure Lesson where
  group_code : String
  date : PyDate
  start_time : Nat × Nat
  end_time : Nat × Nat
  subject : String
  teacher : Option String := Option.none
  room : Option String := Option.none
deriving DecidableEq

/-! ## `parse_excel` (fetcher_parser.py:128-187) -/

/-- One data row of the workbook loop (fetcher_parser.py:146-185), after the
six-way unpacking succeeded.  `_safe_str` is applied to the six cells first,
so the `isinstance(date_val, datetime)` / `isinstance(date_val, date)`
branches (lines 151-154) can never fire: `date_val` is always a `str`, and
only the `DATE_CELL_RE` branch remains reachable.  `none` is a skipped row. -/
def parseRow6 (c1 c2 c3 c4 c5 c6 : CellValue) : Option Lesson :=
  let dateVal := safeStr c1
  let timeVal := safeStr c2
  let subjectVal := safeStr c3
  let teacherVal := safeStr c4
  let roomVal := safeStr c5
  let groupVal := safeStr c6
  if dateVal = ("") ∨ timeVal = ("") ∨ subjectVal = ("") ∨ groupVal = ("") then Option.none
  else
    match parseDateCell dateVal with
    | Option.none => Option.none
    | some lessonDate =>
      match parseTimeCell timeVal with
      | .error _ => Option.none
      | .ok tt =>
        some { group_code := pyUpper groupVal
               date := lessonDate
               start_time := tt.1
               end_time := tt.2
               subject := subjectVal
               teacher := if teacherVal = ("") then Option.none else some teacherVal
               room := if roomVal = ("") then Option.none else some roomVal }

/-- `date_val, time_val, ... = map(_safe_str, row[:6])` (fetcher_parser.py:146):
unpacking fewer than six values raises `ValueError`, which nothing in
`parse_excel` catches. -/
def parseRow (row : List CellValue) : Except String (Option Lesson) :=
  match row with
  | c1 :: c2 :: c3 :: c4 :: c5 :: c6 :: _ => .ok (parseRow6 c1 c2 c3 c4 c5 c6)
  | short =>
    .error (("not enough values to unpack (expected 6, got ") ++ toString short.length ++ (")"))

/-- The data-row loop of `parse_excel`: skipped rows contribute nothing,
an unpacking error aborts the whole file. -/
def parseRows : List (List CellValue) → Except String (List Lesson)
  | [] => .ok []
  | r :: rs =>
    match parseRow r with
    | .error e => .error e
    | .ok Option.none => parseRows rs
    | .ok (some l) => (parseRows rs).map (fun ls => l :: ls)

/-- `parse_excel` (fetcher_parser.py:128-187).  The header scan looks at the
first 10 rows for a group-code token.  `iter_rows(..., values_only=True)`
yields plain value tuples, so `hasattr(row[0], "row")` is false on every
match and `header_row_idx` is always set to the fallback `1`
(fetcher_parser.py:136); the data loop therefore always starts at sheet
row 2, i.e. everything after the first row. -/
def parseExcel (wb : List (List CellValue)) : Except String (List Lesson) :=
  if (wb.take 10).any rowHasGroupToken then
    parseRows (wb.drop 1)
  else .error ("Group header not found in Excel")

/-- 1-based position of the first row among the first 10 that contains a
recognizable group-code token. -/
def findFirstTokenRow (wb : List (List CellValue)) : Option Nat :=
  ((wb.take 10).findIdx? rowHasGroupToken).map (fun i => i + 1)

/-- Modelled from the spec: the variant of `parse_excel` the specification
describes, in which the found row's position is the header boundary and
data rows start immediately after it. -/
def parseExcelSpecC2 (wb : List (List CellValue)) : Except String (List Lesson) :=
  match findFirstTokenRow wb with
  | some i => parseRows (wb.drop i)
  | Option.none => .error ("Group header not found in Excel")

/-! ## TIME_RE (google_sheets_import.py:32)

The source compiles a RAW Python string whose characters are (spaces added
here for readability):
  ( \ \ d { 1 , 2 } ) : ( \ \ d { 2 } ) \ \ s * [ – — - ] \ \ s * ( \ \ d { 1 , 2 } ) : ( \ \ d { 2 } )
Because the string is raw, every doubled backslash is a LITERAL backslash
in the regex, so each `d`/`s` is a literal letter: the pattern matches a
backslash, one or two letters d, a colon, a backslash, two letters d, a
backslash, any number of letters s, a dash (en/em/ASCII), and so on.  It is
used through `.match`, i.e. anchored at the start with trailing characters
allowed, and its four capture groups each consist of a backslash followed
by letters d.  No real time string such as "10:30-12:05" can ever match
(a match must begin with a backslash). -/

/-- The dash class `[–—-]` of TIME_RE. -/
def isSheetDash (c : Char) : Bool :=
  c == '–' || c == '—' || c == '-'

/-- `TIME_RE.match(s)`: the four captured groups, or `none`. -/
def timeReMatch (s : String) : Option (String × String × String × String) :=
  match s.data with
  | '\\' :: r0 =>
    let p1 := charRun 'd' r0
    if 1 ≤ p1.1 ∧ p1.1 ≤ 2 then
      match p1.2 with
      | ':' :: '\\' :: 'd' :: 'd' :: '\\' :: r1 =>
        let p2 := charRun 's' r1
        match p2.2 with
        | dash :: '\\' :: r2 =>
          if isSheetDash dash then
            let p3 := charRun 's' r2
            match p3.2 with
            | '\\' :: r3 =>
              let p4 := charRun 'd' r3
              if 1 ≤ p4.1 ∧ p4.1 ≤ 2 then
                match p4.2 with
                | ':' :: '\\' :: 'd' :: 'd' :: _ =>
                  some (String.mk ('\\' :: List.replicate p1.1 'd'), ("\\dd"),
                        String.mk ('\\' :: List.replicate p4.1 'd'), ("\\dd"))
                | _ => Option.none
              else Option.none
            | _ => Option.none
          else Option.none
        | _ => Option.none
      | _ => Option.none
    else Option.none
  | _ => Option.none

/-! ## `_df_to_lessons` (google_sheets_import.py:54-112)

A DataFrame is modelled as its ordered column names plus positional rows
of cell values; `row.<col>` is the value at the column's position. -/

/-- Value of a named column in a positional row. -/
def colValue (cols : List String) (row : List CellValue) (name : String) : Option CellValue :=
  (cols.findIdx? (fun c => c == name)).bind (fun i => row.get? i)

/-- `df.rename(columns={c.lower().strip(): c for c in df.columns})`
(google_sheets_import.py:67): the mapping's keys are the lowered/stripped
names, so a column is renamed only when its name EQUALS some column's
lowered/stripped form; later comprehension entries overwrite earlier ones. -/
def renameMap (cols : List String) (x : String) : String :=
  match cols.reverse.find? (fun c => pyStrip (pyLower c) == x) with
  | some c => c
  | Option.none => x

/-- The column list after the rename and the `group` → `group_code` alias
(google_sheets_import.py:67-71). -/
def sheetColsFinal (cols : List String) : List String :=
  let cols₁ := cols.map (renameMap cols)
  if (!cols₁.contains ("group_code")) && cols₁.contains ("group")
  then cols₁.map (fun c => if c = ("group") then ("group_code") else c)
  else cols₁

/-- `required - set(df.columns)` (google_sheets_import.py:73-74), in the
canonical order of the source's set literal. -/
def sheetMissing (cols : List String) : List String :=
  ([("group_code"), ("date"), ("time"), ("subject")]).filter
    (fun c => !(sheetColsFinal cols).contains c)

/-- The row loop of `_df_to_lessons` (google_sheets_import.py:80-110):
non-matching `time` rows are skipped silently; a matching row converts the
captured groups with `int(...)`, builds `time(...)` values, and parses the
date (`Timestamp`/`datetime` via `.date()`, anything else via
`strptime("%d.%m.%Y")`); failures of those conversions are uncaught and
abort the whole import.  Only `ValidationError` from the record
constructor is caught per-row, and the modelled constructor cannot fail. -/
def sheetRowLessons (cols : List String) : List (List CellValue) → Except String (List Lesson)
  | [] => .ok []
  | row :: rest =>
    match timeReMatch (pyStr ((colValue cols row ("time")).getD CellValue.vNone)) with
    | Option.none => sheetRowLessons cols rest
    | some gs =>
      match pyInt gs.1, pyInt gs.2.1, pyInt gs.2.2.1, pyInt gs.2.2.2 with
      | some sh, some sm, some eh, some em =>
        match mkTime sh sm, mkTime eh em with
        | some st, some et =>
          match (match (colValue cols row ("date")).getD CellValue.vNone with
                 | CellValue.vDateTime y m d _ _ _ => some (⟨y, m, d⟩ : PyDate)
                 | other => strptimeDMY (pyStr other)) with
          | some d =>
            (sheetRowLessons cols rest).map (fun ls =>
              { group_code := pyUpper (pyStr ((colValue cols row ("group_code")).getD CellValue.vNone))
                date := d
                start_time := st
                end_time := et
                subject := pyStr ((colValue cols row ("subject")).getD CellValue.vNone)
                teacher := (colValue cols row ("teacher")).map pyStr
                room := (colValue cols row ("room")).map pyStr } :: ls)
          | Option.none => .error ("time data does not match format")
        | _, _ => .error ("hour must be in 0..23")
      | _, _, _, _ => .error ("invalid literal for int() with base 10")

/-- `_df_to_lessons`: rename, alias, required-column check, then the row loop. -/
def dfToLessons (cols : List String) (rows : List (List CellValue)) : Except String (List Lesson) :=
  if sheetMissing cols ≠ [] then
    .error (("В таблице нет колонок: ") ++ pyJoin (", ") (sheetMissing cols))
  else sheetRowLessons (sheetColsFinal cols) rows

/-! ## `_parse_csv` (admin.py:53-72)

The delimited-text parser.  `pd.read_csv` and `pd.to_datetime` are the
pandas interface boundary: rows arrive as positional string cells, and the
two generic coercions (`pd.to_datetime(x).date()` / `.time()`) are
function parameters; a `none` from a coercion models the pandas raise,
which `_parse_csv` does not catch (fatal for the whole file). -/

def csvRequired : List String :=
  [("group_code"), ("date"), ("start_time"), ("end_time"), ("subject")]

/-- `required - set(df.columns)` (admin.py:57), in the canonical order of
the source's set literal. -/
def missingCsvCols (cols : List String) : List String :=
  csvRequired.filter (fun c => !cols.contains c)

/-- Value of a named column in a positional CSV row. -/
def csvValue (cols : List String) (row : List String) (name : String) : Option String :=
  (cols.findIdx? (fun c => c == name)).bind (fun i => row.get? i)

/-- The row loop of `_parse_csv` (admin.py:60-71). -/
def parseCsvRows (toDT : String → Option PyDate) (toTM : String → Option (Nat × Nat))
    (cols : List String) : List (List String) → Except String (List Lesson)
  | [] => .ok []
  | row :: rest =>
    match toDT ((csvValue cols row ("date")).getD ("")),
          toTM ((csvValue cols row ("start_time")).getD ("")),
          toTM ((csvValue cols row ("end_time")).getD ("")) with
    | some d, some st, some et =>
      (parseCsvRows toDT toTM cols rest).map (fun ls =>
        { group_code := pyUpper ((csvValue cols row ("group_code")).getD (""))
          date := d
          start_time := st
          end_time := et
          subject := (csvValue cols row ("subject")).getD ("")
          teacher := csvValue cols row ("teacher")
          room := csvValue cols row ("room") } :: ls)
    | _, _, _ => .error ("could not convert value")

/-- `_parse_csv`: the required-column check precedes the row loop; the
error names the missing columns. -/
def parseCsv (toDT : String → Option PyDate) (toTM : String → Option (Nat × Nat))
    (cols : List String) (rows : List (List String)) : Except String (List Lesson) :=
  if missingCsvCols cols ≠ [] then
    .error (("CSV missing columns: ") ++ pyJoin (", ") (missingCsvCols cols))
  else parseCsvRows toDT toTM cols rows

/-! ## Persisted schema and the async session (db/models.py, app/bot.py)

A SQLAlchemy `AsyncSession` over the store is modelled as committed rows
plus uncommitted work (everything `db.add`-ed or flushed inside the open
transaction).  Queries issued through the session see committed and
uncommitted rows alike (autoflush); `commit` makes the uncommitted rows
permanent; `rollback` discards them.  Autoincrement ids start at 1 and the
counters are monotone.  `Group` rows are seeded out-of-band and this core
never writes them. -/

structure GroupRow where
  id : Nat
  code : String
deriving DecidableEq

structure RoomRow where
  id : Nat
  building : String
  number : String
deriving DecidableEq

structure TeacherRow where
  id : Nat
  name : String
deriving DecidableEq

structure SourceFileRow where
  id : Nat
  url : String
  sha256 : String
deriving DecidableEq

structure LessonRow where
  group_id : Nat
  date : PyDate
  start_time : Nat × Nat
  end_time : Nat × Nat
  subject : String
  teacher_id : Option Nat
  room_id : Option Nat
  source_id : Nat
deriving DecidableEq

structure Db where
  groups : List GroupRow
  committedSources : List SourceFileRow
  pendingSources : List SourceFileRow
  committedRooms : List RoomRow
  pendingRooms : List RoomRow
  committedTeachers : List TeacherRow
  pendingTeachers : List TeacherRow
  committedLessons : List LessonRow
  pendingLessons : List LessonRow
  nextSourceId : Nat
  nextRoomId : Nat
  nextTeacherId : Nat
deriving DecidableEq

def emptyDb : Db :=
  { groups := [], committedSources := [], pendingSources := [],
    committedRooms := [], pendingRooms := [],
    committedTeachers := [], pendingTeachers := [],
    committedLessons := [], pendingLessons := [],
    nextSourceId := 1, nextRoomId := 1, nextTeacherId := 1 }

def visibleSources (db : Db) : List SourceFileRow := db.committedSources ++ db.pendingSources
def visibleRooms (db : Db) : List RoomRow := db.committedRooms ++ db.pendingRooms
def visibleTeachers (db : Db) : List TeacherRow := db.committedTeachers ++ db.pendingTeachers

/-- `await session.commit()`. -/
def dbCommit (db : Db) : Db :=
  { db with
    committedSources := db.committedSources ++ db.pendingSources, pendingSources := []
    committedRooms := db.committedRooms ++ db.pendingRooms, pendingRooms := []
    committedTeachers := db.committedTeachers ++ db.pendingTeachers, pendingTeachers := []
    committedLessons := db.committedLessons ++ db.pendingLessons, pendingLessons := [] }

/-- `await session.rollback()`. -/
def dbRollback (db : Db) : Db :=
  { db with pendingSources := [], pendingRooms := [], pendingTeachers := [], pendingLessons := [] }

/-- `get_session` (bot.py:56-65): run the action, commit on normal exit,
roll back and re-raise on an exception.  A Python exception carries the
session state it was raised in, so the error branch of an action returns
that state; the wrapper's result is the raised message (if any) and the
persistent store left behind. -/
def runGetSession (action : Db → Except (String × Db) Db) (db : Db) : Option String × Db :=
  match action db with
  | .ok db₂ => (Option.none, dbCommit db₂)
  | .error p => (some p.1, dbRollback p.2)

/-! ## `upsert_source_file` (fetcher_parser.py:196-213) -/

structure SourceFileMeta where
  url : String
  sha256 : String
deriving DecidableEq

/-- `upsert_source_file`: select by sha256; on a hit return the existing id
(`if existing_id:` — real ids are never 0, and a miss yields `None`),
otherwise add a new row, flush (it becomes visible and gets its id), and
return the new id. -/
def upsertSourceFile (meta : SourceFileMeta) (db : Db) : Nat × Db :=
  match (visibleSources db).find? (fun sf => sf.sha256 == meta.sha256) with
  | some sf => (sf.id, db)
  | Option.none =>
    let id := db.nextSourceId
    (id, { db with
           pendingSources := db.pendingSources ++ [{ id := id, url := meta.url, sha256 := meta.sha256 }]
           nextSourceId := id + 1 })

/-! ## `bulk_insert_lessons` (fetcher_parser.py:216-278) -/

/-- The per-call fk caches (`group_cache`, `room_cache`, `teacher_cache`). -/
structure Caches where
  groupCache : List (String × Nat)
  roomCache : List (String × Nat)
  teacherCache : List (String × Nat)

def emptyCaches : Caches := ⟨[], [], []⟩

/-- Python dict lookup on an association list (later inserts are consed on,
so the head-first search sees the latest binding). -/
def cacheLookup (k : String) : List (String × Nat) → Option Nat
  | [] => Option.none
  | p :: rest => if p.1 = k then some p.2 else cacheLookup k rest

def unknownGroupMsg (code : String) : String :=
  ("Unknown group ") ++ code ++ ("; import group seeds first")

/-- `_get_group` (fetcher_parser.py:225-233): cache, then a read-only select;
a miss raises `RuntimeError` naming the code. -/
def getGroup (code : String) (c : Caches) (db : Db) : Except String (Nat × Caches) :=
  match cacheLookup code c.groupCache with
  | some gid => .ok (gid, c)
  | Option.none =>
    match db.groups.find? (fun g => g.code == code) with
    | some g => .ok (g.id, { c with groupCache := (code, g.id) :: c.groupCache })
    | Option.none => .error (unknownGroupMsg code)

/-- `room_name.partition("-") if "-" in room_name else ("", "", room_name)`
(fetcher_parser.py:238): split at the FIRST hyphen when one is present. -/
def splitAtFirstHyphen : List Char → Option (List Char × List Char)
  | [] => Option.none
  | c :: cs =>
    if c = '-' then some ([], cs)
    else
      match splitAtFirstHyphen cs with
      | some p => some (c :: p.1, p.2)
      | Option.none => Option.none

def roomKeySplit (s : String) : String × String :=
  match splitAtFirstHyphen s.data with
  | some p => (String.mk p.1, String.mk p.2)
  | Option.none => (("") , s)

/-- `_get_or_create_room` (fetcher_parser.py:235-247): cache, select by
building+number, else add and flush a new row. -/
def getOrCreateRoom (roomName : String) (c : Caches) (db : Db) : Nat × Caches × Db :=
  match cacheLookup roomName c.roomCache with
  | some rid => (rid, c, db)
  | Option.none =>
    let bn := roomKeySplit roomName
    match (visibleRooms db).find? (fun r => r.building == bn.1 && r.number == bn.2) with
    | some r => (r.id, { c with roomCache := (roomName, r.id) :: c.roomCache }, db)
    | Option.none =>
      let rid := db.nextRoomId
      (rid, { c with roomCache := (roomName, rid) :: c.roomCache },
       { db with pendingRooms := db.pendingRooms ++ [{ id := rid, building := bn.1, number := bn.2 }]
                 nextRoomId := rid + 1 })

/-- `_get_or_create_teacher` (fetcher_parser.py:249-260). -/
def getOrCreateTeacher (name : String) (c : Caches) (db : Db) : Nat × Caches × Db :=
  match cacheLookup name c.teacherCache with
  | some tid => (tid, c, db)
  | Option.none =>
    match (visibleTeachers db).find? (fun t => t.name == name) with
    | some t => (t.id, { c with teacherCache := (name, t.id) :: c.teacherCache }, db)
    | Option.none =>
      let tid := db.nextTeacherId
      (tid, { c with teacherCache := (name, tid) :: c.teacherCache },
       { db with pendingTeachers := db.pendingTeachers ++ [{ id := tid, name := name }]
                 nextTeacherId := tid + 1 })

/-- `await _get_or_create_room(rec.room) if rec.room else None` (fetcher_parser.py:264). -/
def resolveRoom (room : Option String) (c : Caches) (db : Db) : Option Nat × Caches × Db :=
  match room with
  | some r =>
    let q := getOrCreateRoom r c db
    (some q.1, q.2.1, q.2.2)
  | Option.none => (Option.none, c, db)

/-- `await _get_or_create_teacher(rec.teacher) if rec.teacher else None` (fetcher_parser.py:265). -/
def resolveTeacher (teacher : Option String) (c : Caches) (db : Db) : Option Nat × Caches × Db :=
  match teacher with
  | some t =>
    let q := getOrCreateTeacher t c db
    (some q.1, q.2.1, q.2.2)
  | Option.none => (Option.none, c, db)

/-- The body of one loop iteration after the group id is known
(fetcher_parser.py:264-276): resolve the room, then the teacher, then add
the `LessonORM` row to the session. -/
def bulkStep (sid gid : Nat) (rec : Lesson) (c : Caches) (db : Db) : Caches × Db :=
  let r := resolveRoom rec.room c db
  let t := resolveTeacher rec.teacher r.2.1 r.2.2
  let obj : LessonRow :=
    { group_id := gid, date := rec.date, start_time := rec.start_time,
      end_time := rec.end_time, subject := rec.subject,
      teacher_id := t.1, room_id := r.1, source_id := sid }
  (t.2.1, { t.2.2 with pendingLessons := t.2.2.pendingLessons ++ [obj] })

/-- The loop of `bulk_insert_lessons` (fetcher_parser.py:262-277): an
unknown group raises (the exception carries the session as it stands),
otherwise every row is added and `db.commit()` runs once at the end. -/
def bulkGo (sid : Nat) : List Lesson → Caches → Db → Except (String × Db) Db
  | [], _, db => .ok (dbCommit db)
  | rec :: rest, c, db =>
    match getGroup rec.group_code c db with
    | .error e => .error (e, db)
    | .ok g =>
      let s := bulkStep sid g.1 rec g.2 db
      bulkGo sid rest s.1 s.2

def bulkInsertLessons (lessons : List Lesson) (sid : Nat) (db : Db) : Except (String × Db) Db :=
  bulkGo sid lessons emptyCaches db

/-! ## `sync` (fetcher_parser.py:285-302)

Discovery (`list_files`), download and hashing are the HTTP/`hashlib`
interface boundary: the listing outcome is an `Except` argument and each
discovered file carries its download-and-hash outcome (the sha256 of the
bytes and the workbook rows those bytes parse into). -/

structure FileJob where
  url : String
  fetch : Except String (String × List (List CellValue))

/-- The body of `sync`'s per-file `try` block (fetcher_parser.py:292-300):
download, hash, upsert the meta, skip when `not sf_id` (never true: ids
start at 1), parse, bulk-insert. -/
def processFile (job : FileJob) (db : Db) : Except (String × Db) Db :=
  match job.fetch with
  | .error e => .error (e, db)
  | .ok fh =>
    let meta : SourceFileMeta := { url := job.url, sha256 := fh.1 }
    let up := upsertSourceFile meta db
    if up.1 = 0 then .ok up.2
    else
      match parseExcel fh.2 with
      | .error e => .error (e, up.2)
      | .ok lessons => bulkInsertLessons lessons up.1 up.2

/-- The `for link in links` loop: any exception from a file's processing is
caught and logged, and the loop continues on the session state the
exception was raised in (no rollback). -/
def syncLoop : List FileJob → Db → Db
  | [], db => db
  | j :: rest, db =>
    match processFile j db with
    | .ok db₂ => syncLoop rest db₂
    | .error p => syncLoop rest p.2

/-- `sync` (fetcher_parser.py:285-302): `links = await list_files()` runs
OUTSIDE the per-file `try`, so a discovery failure propagates to the
caller; `if limit:` slices only for a truthy (non-zero) limit. -/
def sync (listing : Except String (List FileJob)) (limit : Option Nat) (db : Db) :
    Except String Db :=
  match listing with
  | .error e => .error e
  | .ok links =>
    let links₂ := match limit with
      | some n => if n ≠ 0 then links.take n else links
      | Option.none => links
    .ok (syncLoop links₂ db)

/-- First component of a raised per-file error, `none` for success. -/
def errOf : Except (String × Db) Db → Option String
  | .error p => some p.1
  | .ok _ => Option.none

/-! ## The bot's query layer (bot.py:79-117)

`_markdown_schedule_for_day` selects a group's lessons for one date
ordered by `start_time` (with joined teacher/room rows) and formats them;
`_markdown_schedule_for_week` walks the 6 days from Monday and keeps a
day's text unless it contains the no-lessons phrase.  The TTL caches are
pure memoisation of these functions and are not modelled. -/

structure BotLesson where
  group_id : Nat
  date : PyDate
  start_time : Nat × Nat
  end_time : Nat × Nat
  subject : String
  teacher : Option String
  room : Option (String × String)
deriving DecidableEq

def timeLe (a b : Nat × Nat) : Bool :=
  Nat.blt a.1 b.1 || (a.1 == b.1 && Nat.ble a.2 b.2)

def insertByStart (x : BotLesson) : List BotLesson → List BotLesson
  | [] => [x]
  | y :: t =>
    if timeLe y.start_time x.start_time then y :: insertByStart x t
    else x :: y :: t

/-- `ORDER BY start_time` (the relative order of equal keys is unspecified
in SQL; this sort fixes one). -/
def sortByStart : List BotLesson → List BotLesson
  | [] => []
  | x :: t => insertByStart x (sortByStart t)

/-- The day query of `_markdown_schedule_for_day` (bot.py:84-90). -/
def lessonsFor (store : List BotLesson) (gid : Nat) (d : PyDate) : List BotLesson :=
  sortByStart (store.filter (fun l => l.group_id == gid && l.date == d))

/-- One numbered line of the day schedule (bot.py:95-99). -/
def lessonLine (i : Nat) (les : BotLesson) : String :=
  let tstr := fmtHM les.start_time ++ ("–") ++ fmtHM les.end_time
  let teacher := match les.teacher with
    | some name => ("\n_преп.: ") ++ name ++ ("_")
    | Option.none => ("")
  let room := match les.room with
    | some bn => (" (") ++ bn.1 ++ ("-") ++ bn.2 ++ (")")
    | Option.none => ("")
  toString i ++ (". `") ++ tstr ++ ("` **") ++ les.subject ++ ("**") ++ room ++ teacher

/-- `enumerate(lessons, 1)`. -/
def numberedLines : Nat → List BotLesson → List String
  | _, [] => []
  | i, l :: t => lessonLine i l :: numberedLines (i + 1) t

/-- The formatting of `_markdown_schedule_for_day` (bot.py:91-100). -/
def dayTextOf (d : PyDate) (lessons : List BotLesson) : String :=
  if lessons.isEmpty then ("📅 На ") ++ fmtDMY d ++ (" занятий нет!")
  else pyJoin ("\n") ((("📅 **Расписание на ") ++ fmtDMY d ++ ("**")) :: numberedLines 1 lessons)

def dayText (store : List BotLesson) (gid : Nat) (d : PyDate) : String :=
  dayTextOf d (lessonsFor store gid d)

def markerStr : String := ("занятий нет")

/-- The per-day body of the week loop (bot.py:110-114): drop the day's text
when it contains the no-lessons phrase. -/
def weekDayPick (store : List BotLesson) (gid : Nat) (d : PyDate) : Option String :=
  let daily := dayText store gid d
  if containsSub daily markerStr then Option.none else some daily

/-- The `texts` list accumulated by `_markdown_schedule_for_week`'s loop
(bot.py:109-114): Monday..Saturday (`range(6)`), kept days in order. -/
def weekTexts (store : List BotLesson) (gid : Nat) (monday : PyDate) : List String :=
  ((List.range 6).map (fun i => addDays monday i)).filterMap (weekDayPick store gid)

/-- `_markdown_schedule_for_week` (bot.py:105-117): kept texts joined by a
blank line, sentinel when nothing is kept. -/
def weekText (store : List BotLesson) (gid : Nat) (monday : PyDate) : String :=
  if (weekTexts store gid monday).isEmpty then ("ℹ️ На этой неделе занятий нет.")
  else pyJoin ("\n\n") (weekTexts store gid monday)

/-! ## Concrete scenario data for the claims -/

def mkRow (a b c d e f : String) : List CellValue :=
  [CellValue.vStr a, CellValue.vStr b, CellValue.vStr c,
   CellValue.vStr d, CellValue.vStr e, CellValue.vStr f]

/-- A header row: its group-code column title contains the token АБ-12. -/
def hdrRow : List CellValue :=
  mkRow ("Дата") ("Время") ("Предмет") ("Преподаватель") ("Аудитория") ("АБ-12")

def rowMath : List CellValue :=
  mkRow ("01.09.24") ("10:30-12:05") ("Математика") ("") ("") ("АБ-12")

def rowPhys : List CellValue :=
  mkRow ("01.09.24") ("12:15-13:50") ("Физика") ("") ("") ("ВГ-34")

def rowHist : List CellValue :=
  mkRow ("02.09.24") ("09:00-10:30") ("История") ("") ("") ("АБ-12")

/-- A store seeded (out-of-band) with the single group АБ-12. -/
def dbSeed : Db := { emptyDb with groups := [{ id := 1, code := ("АБ-12") }] }

/-- C2: a first row without any group token followed by a parseable data
row (which necessarily contains a group token itself). -/
def wbC2 : List (List CellValue) := [[CellValue.vStr ("Расписание")], rowMath]

def lessonC2 : Lesson :=
  { group_code := ("АБ-12"), date := ⟨2024, 9, 1⟩, start_time := (10, 30),
    end_time := (12, 5), subject := ("Математика") }

/-- C1: two discovered files with byte-identical content (same sha256)
under different URLs. -/
def wbC1 : List (List CellValue) := [hdrRow, rowMath]

def jobC1a : FileJob := { url := ("http://x/a.xlsx"), fetch := .ok (("h1"), wbC1) }
def jobC1b : FileJob := { url := ("http://x/b.xlsx"), fetch := .ok (("h1"), wbC1) }

/-- C4: a first file whose batch mixes a known and an unknown group, then a
healthy second file. -/
def wbC4a : List (List CellValue) := [hdrRow, rowMath, rowPhys]
def wbC4b : List (List CellValue) := [hdrRow, rowHist]

def jobC4a : FileJob := { url := ("http://x/a.xlsx"), fetch := .ok (("ha"), wbC4a) }
def jobC4b : FileJob := { url := ("http://x/b.xlsx"), fetch := .ok (("hb"), wbC4b) }

/-- C5: a file whose download fails. -/
def jobFail : FileJob := { url := ("http://x/broken.xlsx"), fetch := .error ("boom") }

/-- C7: data rows whose date cell is a native date / native datetime. -/
def wbC7 : List (List CellValue) :=
  [hdrRow,
   [CellValue.vDate 2024 9 1, CellValue.vStr ("10:30-12:05"), CellValue.vStr ("Математика"),
    CellValue.vNone, CellValue.vNone, CellValue.vStr ("АБ-12")]]

def wbC7dt : List (List CellValue) :=
  [hdrRow,
   [CellValue.vDateTime 2024 9 1 0 0 0, CellValue.vStr ("10:30-12:05"), CellValue.vStr ("Математика"),
    CellValue.vNone, CellValue.vNone, CellValue.vStr ("АБ-12")]]

/-- C10: a data row with a single physical cell. -/
def wbC10 : List (List CellValue) := [hdrRow, [CellValue.vStr ("01.09.24")]]

/-- C3: a shared-sheet table with the documented columns and a row whose
time cell is exactly "10:30-12:05". -/
def colsC3 : List String := [("group_code"), ("date"), ("time"), ("subject")]

def rowC3 : List CellValue :=
  [CellValue.vStr ("АБ-12"), CellValue.vStr ("01.09.2024"),
   CellValue.vStr ("10:30-12:05"), CellValue.vStr ("Математика")]

def rowC3en : List CellValue :=
  [CellValue.vStr ("АБ-12"), CellValue.vStr ("01.09.2024"),
   CellValue.vStr ("10:30–12:05"), CellValue.vStr ("Математика")]

/-- C6: a CSV header missing `subject`. -/
def colsW6 : List String := [("group_code"), ("date"), ("start_time"), ("end_time")]

/-- C9: Monday 2024-09-02; the group's only lesson is on Wednesday and its
free-text subject happens to contain the no-lessons phrase. -/
def monday9 : PyDate := ⟨2024, 9, 2⟩

def store9c : List BotLesson :=
  [{ group_id := 1, date := ⟨2024, 9, 4⟩, start_time := (10, 30), end_time := (12, 5),
     subject := ("занятий нет"), teacher := Option.none, room := Option.none }]

/-- C9 witness store: an ordinary Wednesday lesson. -/
def storeW9 : List BotLesson :=
  [{ group_id := 2, date := ⟨2024, 9, 4⟩, start_time := (9, 0), end_time := (10, 30),
     subject := ("Математика"), teacher := Option.none, room := Option.none }]

/-- C4 witness: a one-lesson batch whose group is not seeded. -/
def lW4 : Lesson :=
  { group_code := ("ХХ-99"), date := ⟨2024, 9, 1⟩, start_time := (10, 30),
    end_time := (12, 5), subject := ("Математика") }

/-! ## Helper lemmas -/

theorem charsContains_append (needle l₁ l₂ : List Char)
    (h : charsContains needle l₂ = true) :
    charsContains needle (l₁ ++ l₂) = true := by
  induction l₁ with
  | nil => simpa using h
  | cons c t ih =>
    show (needle.isPrefixOf (c :: (t ++ l₂)) || charsContains needle (t ++ l₂)) = true
    rw [ih]
    exact Bool.or_true _

/-- The no-lessons day text always contains the phrase the week loop tests for. -/
theorem dayTextOf_empty_contains_marker (d : PyDate) :
    containsSub (dayTextOf d []) markerStr = true := by
  show charsContains markerStr.data ((("📅 На ") ++ fmtDMY d).data ++ (" занятий нет!").data) = true
  exact charsContains_append markerStr.data _ _ (by decide)

/-- A day with no lessons is dropped by the week loop. -/
theorem weekDayPick_none (store : List BotLesson) (gid : Nat) (d : PyDate)
    (h : lessonsFor store gid d = []) : weekDayPick store gid d = Option.none := by
  simp only [weekDayPick, dayText, h, dayTextOf_empty_contains_marker d, if_true]

/-- A day whose text avoids the phrase is kept by the week loop. -/
theorem weekDayPick_some (store : List BotLesson) (gid : Nat) (d : PyDate)
    (h : containsSub (dayText store gid d) markerStr = false) :
    weekDayPick store gid d = some (dayText store gid d) := by
  simp only [weekDayPick, h]
  simp

theorem splitAtFirstHyphen_spec (cs : List Char) :
    (∀ a b, splitAtFirstHyphen cs = some (a, b) → a ++ '-' :: b = cs ∧ a.contains '-' = false) ∧
    (splitAtFirstHyphen cs = Option.none → cs.contains '-' = false) := by
  induction cs with
  | nil =>
    exact ⟨fun a b h => absurd h (by simp [splitAtFirstHyphen]), fun _ => rfl⟩
  | cons c t ih =>
    constructor
    · intro a b h
      by_cases hc : c = '-'
      · subst hc
        have h0 : splitAtFirstHyphen ('-' :: t) = some ([], t) := by
          simp [splitAtFirstHyphen]
        rw [h0] at h
        injection h with h1
        injection h1 with ha hb
        subst ha; subst hb
        exact ⟨rfl, rfl⟩
      · simp only [splitAtFirstHyphen, if_neg hc] at h
        cases hsp : splitAtFirstHyphen t with
        | none => rw [hsp] at h; exact absurd h (by simp)
        | some p =>
          rw [hsp] at h
          injection h with h1
          injection h1 with ha hb
          subst hb; subst ha
          obtain ⟨h1, h2⟩ := ih.1 p.1 p.2 (by rw [hsp])
          constructor
          · rw [List.cons_append, h1]
          · rw [List.contains_cons, h2]
            simp only [Bool.or_false]
            exact beq_eq_false_iff_ne.mpr (fun hx => hc hx.symm)
    · intro h
      by_cases hc : c = '-'
      · exact absurd h (by subst hc; simp [splitAtFirstHyphen])
      · simp only [splitAtFirstHyphen, if_neg hc] at h
        cases hsp : splitAtFirstHyphen t with
        | none =>
          rw [List.contains_cons, ih.2 hsp]
          simp only [Bool.or_false]
          exact beq_eq_false_iff_ne.mpr (fun hx => hc hx.symm)
        | some p => rw [hsp] at h; exact absurd h (by simp)

/-- Invariant of every cached group code: it resolves in the store.  The
`groups` table is read-only for the loader, so the invariant survives
room/teacher creation. -/
def goodGroupCache (c : Caches) (db : Db) : Prop :=
  ∀ p ∈ c.groupCache, (db.groups.find? (fun g => g.code == p.1)).isSome = true

theorem cacheLookup_mem (k : String) (l : List (String × Nat)) (v : Nat)
    (h : cacheLookup k l = some v) : (k, v) ∈ l := by
  induction l with
  | nil => exact absurd h (by simp [cacheLookup])
  | cons p rest ih =>
    by_cases hp : p.1 = k
    · simp only [cacheLookup, if_pos hp] at h
      injection h with hv
      subst hv
      rw [show p = (k, p.2) from by rw [← hp]]
      exact List.mem_cons_self _ _
    · simp only [cacheLookup, if_neg hp] at h
      exact List.mem_cons_of_mem p (ih h)

/-- An unknown code (never cached, by the cache invariant) makes
`_get_group` raise the message naming it. -/
theorem getGroup_unknown (code : String) (c : Caches) (db : Db)
    (hg : db.groups.find? (fun g => g.code == code) = Option.none)
    (hc : goodGroupCache c db) :
    getGroup code c db = .error (unknownGroupMsg code) := by
  unfold getGroup
  cases hl : cacheLookup code c.groupCache with
  | some gid =>
    have := hc (code, gid) (cacheLookup_mem code c.groupCache gid hl)
    rw [hg] at this
    exact absurd this (by simp)
  | none =>
    rw [hg]

/-- `_get_group` succeeding leaves the cache invariant intact. -/
theorem getGroup_ok_cache (code : String) (c : Caches) (db : Db) (gid : Nat) (c₂ : Caches)
    (h : getGroup code c db = .ok (gid, c₂)) (hc : goodGroupCache c db) :
    goodGroupCache c₂ db := by
  unfold getGroup at h
  cases hl : cacheLookup code c.groupCache with
  | some g =>
    rw [hl] at h
    injection h with h1
    injection h1 with _ h2
    subst h2
    exact hc
  | none =>
    rw [hl] at h
    cases hf : db.groups.find? (fun g => g.code == code) with
    | some g =>
      rw [hf] at h
      injection h with h1
      injection h1 with _ h2
      subst h2
      intro p hp
      rcases List.mem_cons.mp hp with hh | hh
      · subst hh
        rw [hf]
        rfl
      · exact hc p hh
    | none => rw [hf] at h; exact absurd h (by simp)

/-- `_get_or_create_room` never touches `groups`, committed rows, or the
group cache. -/
theorem getOrCreateRoom_inv (r : String) (c : Caches) (db : Db) :
    (getOrCreateRoom r c db).2.2.groups = db.groups ∧
    (getOrCreateRoom r c db).2.2.committedSources = db.committedSources ∧
    (getOrCreateRoom r c db).2.2.committedLessons = db.committedLessons ∧
    (getOrCreateRoom r c db).2.1.groupCache = c.groupCache := by
  unfold getOrCreateRoom
  dsimp only
  split
  · exact ⟨rfl, rfl, rfl, rfl⟩
  · split
    · exact ⟨rfl, rfl, rfl, rfl⟩
    · exact ⟨rfl, rfl, rfl, rfl⟩

theorem getOrCreateTeacher_inv (t : String) (c : Caches) (db : Db) :
    (getOrCreateTeacher t c db).2.2.groups = db.groups ∧
    (getOrCreateTeacher t c db).2.2.committedSources = db.committedSources ∧
    (getOrCreateTeacher t c db).2.2.committedLessons = db.committedLessons ∧
    (getOrCreateTeacher t c db).2.1.groupCache = c.groupCache := by
  unfold getOrCreateTeacher
  dsimp only
  split
  · exact ⟨rfl, rfl, rfl, rfl⟩
  · split
    · exact ⟨rfl, rfl, rfl, rfl⟩
    · exact ⟨rfl, rfl, rfl, rfl⟩

theorem resolveRoom_inv (room : Option String) (c : Caches) (db : Db) :
    (resolveRoom room c db).2.2.groups = db.groups ∧
    (resolveRoom room c db).2.2.committedSources = db.committedSources ∧
    (resolveRoom room c db).2.2.committedLessons = db.committedLessons ∧
    (resolveRoom room c db).2.1.groupCache = c.groupCache := by
  cases room with
  | none => exact ⟨rfl, rfl, rfl, rfl⟩
  | some r => exact getOrCreateRoom_inv r c db

theorem resolveTeacher_inv (teacher : Option String) (c : Caches) (db : Db) :
    (resolveTeacher teacher c db).2.2.groups = db.groups ∧
    (resolveTeacher teacher c db).2.2.committedSources = db.committedSources ∧
    (resolveTeacher teacher c db).2.2.committedLessons = db.committedLessons ∧
    (resolveTeacher teacher c db).2.1.groupCache = c.groupCache := by
  cases teacher with
  | none => exact ⟨rfl, rfl, rfl, rfl⟩
  | some t => exact getOrCreateTeacher_inv t c db

/-- One loader iteration never touches `groups`, committed rows, or the
group cache. -/
theorem bulkStep_inv (sid gid : Nat) (rec : Lesson) (c : Caches) (db : Db) :
    (bulkStep sid gid rec c db).2.groups = db.groups ∧
    (bulkStep sid gid rec c db).2.committedSources = db.committedSources ∧
    (bulkStep sid gid rec c db).2.committedLessons = db.committedLessons ∧
    (bulkStep sid gid rec c db).1.groupCache = c.groupCache := by
  obtain ⟨hg1, hs1, hl1, hc1⟩ := resolveRoom_inv rec.room c db
  obtain ⟨hg2, hs2, hl2, hc2⟩ :=
    resolveTeacher_inv rec.teacher (resolveRoom rec.room c db).2.1 (resolveRoom rec.room c db).2.2
  unfold bulkStep
  exact ⟨by rw [hg2, hg1], by rw [hs2, hs1], by rw [hl2, hl1], by rw [hc2, hc1]⟩

/-- A batch containing a lesson with an unknown group code makes
`bulk_insert_lessons`'s loop raise before the final commit: the error
names an unknown code and the committed lesson rows are untouched. -/
theorem bulkGo_unknown (sid : Nat) (lessons : List Lesson) :
    ∀ (c : Caches) (db : Db) (l : Lesson), l ∈ lessons →
      db.groups.find? (fun g => g.code == l.group_code) = Option.none →
      goodGroupCache c db →
      ∃ code st, bulkGo sid lessons c db = .error (unknownGroupMsg code, st) ∧
        db.groups.find? (fun g => g.code == code) = Option.none ∧
        st.committedLessons = db.committedLessons := by
  induction lessons with
  | nil => intro c db l hl; exact absurd hl (List.not_mem_nil l)
  | cons rec rest ih =>
    intro c db l hl hunk hc
    cases hg : getGroup rec.group_code c db with
    | error e =>
      have hrecu : db.groups.find? (fun g => g.code == rec.group_code) = Option.none := by
        by_contra hne
        cases hf : db.groups.find? (fun g => g.code == rec.group_code) with
        | none => exact hne hf
        | some g =>
          have : getGroup rec.group_code c db = .error e := hg
          unfold getGroup at this
          cases hl2 : cacheLookup rec.group_code c.groupCache with
          | some gid => rw [hl2] at this; exact absurd this (by simp)
          | none => rw [hl2, hf] at this; exact absurd this (by simp)
      have he : e = unknownGroupMsg rec.group_code := by
        have h2 := getGroup_unknown rec.group_code c db hrecu hc
        rw [hg] at h2
        exact Except.error.inj h2
      subst he
      refine ⟨rec.group_code, db, ?_, hrecu, rfl⟩
      show (match getGroup rec.group_code c db with
            | .error e => .error (e, db)
            | .ok g => bulkGo sid rest (bulkStep sid g.1 rec g.2 db).1 (bulkStep sid g.1 rec g.2 db).2)
           = Except.error (unknownGroupMsg rec.group_code, db)
      rw [hg]
    | ok g =>
      have hlr : l ∈ rest := by
        rcases List.mem_cons.mp hl with hh | hh
        · subst hh
          have := getGroup_unknown l.group_code c db hunk hc
          rw [hg] at this
          exact absurd this (by simp)
        · exact hh
      have hc₂ : goodGroupCache g.2 db := by
        have : getGroup rec.group_code c db = .ok (g.1, g.2) := hg
        exact getGroup_ok_cache rec.group_code c db g.1 g.2 this hc
      obtain ⟨hg3, hs3, hl3, hc3⟩ := bulkStep_inv sid g.1 rec g.2 db
      have hunk₂ : (bulkStep sid g.1 rec g.2 db).2.groups.find?
          (fun q => q.code == l.group_code) = Option.none := by rw [hg3]; exact hunk
      have hc₃ : goodGroupCache (bulkStep sid g.1 rec g.2 db).1 (bulkStep sid g.1 rec g.2 db).2 := by
        intro p hp
        rw [hc3] at hp
        rw [hg3]
        exact hc₂ p hp
      obtain ⟨code, st, hrun, hcode, hcl⟩ :=
        ih (bulkStep sid g.1 rec g.2 db).1 (bulkStep sid g.1 rec g.2 db).2 l hlr hunk₂ hc₃
      refine ⟨code, st, ?_, ?_, ?_⟩
      · show (match getGroup rec.group_code c db with
              | .error e => .error (e, db)
              | .ok g => bulkGo sid rest (bulkStep sid g.1 rec g.2 db).1 (bulkStep sid g.1 rec g.2 db).2)
             = Except.error (unknownGroupMsg code, st)
        rw [hg]
        exact hrun
      · rw [← hg3]; exact hcode
      · rw [hcl, hl3]

/-- A physically short row makes the six-way unpacking raise. -/
theorem parseRow_short (r : List CellValue) (h : r.length < 6) :
    parseRow r =
      .error (("not enough values to unpack (expected 6, got ") ++ toString r.length ++ (")")) := by
  rcases r with _ | ⟨a, _ | ⟨b, _ | ⟨c, _ | ⟨d, _ | ⟨e, _ | ⟨f, t⟩⟩⟩⟩⟩⟩
  · rfl
  · rfl
  · rfl
  · rfl
  · rfl
  · rfl
  · exfalso
    simp only [List.length_cons] at h
    omega

/-- A row with at least six cells is processed without raising. -/
theorem parseRows_cons_long (a b c d e f : CellValue) (t : List CellValue)
    (xs : List (List CellValue)) :
    parseRows ((a :: b :: c :: d :: e :: f :: t) :: xs) =
      (match parseRow6 a b c d e f with
       | Option.none => parseRows xs
       | some l => (parseRows xs).map (fun ls => l :: ls)) := by
  cases hp : parseRow6 a b c d e f with
  | none =>
    show (match parseRow (a :: b :: c :: d :: e :: f :: t) with
          | .error e₂ => Except.error e₂
          | .ok Option.none => parseRows xs
          | .ok (some l) => (parseRows xs).map (fun ls => l :: ls)) = parseRows xs
    show (match (Except.ok (parseRow6 a b c d e f) : Except String (Option Lesson)) with
          | .error e₂ => Except.error e₂
          | .ok Option.none => parseRows xs
          | .ok (some l) => (parseRows xs).map (fun ls => l :: ls)) = parseRows xs
    rw [hp]
  | some l =>
    show (match (Except.ok (parseRow6 a b c d e f) : Except String (Option Lesson)) with
          | .error e₂ => Except.error e₂
          | .ok Option.none => parseRows xs
          | .ok (some l₂) => (parseRows xs).map (fun ls => l₂ :: ls)) =
         (parseRows xs).map (fun ls => l :: ls)
    rw [hp]

/-- Some row being short forces the whole row loop into an error. -/
theorem parseRows_short (rows : List (List CellValue))
    (hshort : ∃ r ∈ rows, r.length < 6) : ∃ e, parseRows rows = .error e := by
  induction rows with
  | nil =>
    obtain ⟨r, hr, _⟩ := hshort
    exact absurd hr (List.not_mem_nil r)
  | cons x xs ih =>
    obtain ⟨r, hr, hlen⟩ := hshort
    by_cases hx : x.length < 6
    · refine ⟨("not enough values to unpack (expected 6, got ") ++ toString x.length ++ (")"), ?_⟩
      show (match parseRow x with
            | .error e₂ => Except.error e₂
            | .ok Option.none => parseRows xs
            | .ok (some l) => (parseRows xs).map (fun ls => l :: ls)) = _
      rw [parseRow_short x hx]
    · have hxr : r ∈ xs := by
        rcases List.mem_cons.mp hr with hh | hh
        · subst hh; exact absurd hlen hx
        · exact hh
      obtain ⟨e, he⟩ := ih ⟨r, hxr, hlen⟩
      rcases x with _ | ⟨a, x⟩
      · exact absurd (by simp) hx
      rcases x with _ | ⟨b, x⟩
      · exact absurd (by simp) hx
      rcases x with _ | ⟨c, x⟩
      · exact absurd (by simp) hx
      rcases x with _ | ⟨d, x⟩
      · exact absurd (by simp) hx
      rcases x with _ | ⟨e₃, x⟩
      · exact absurd (by simp) hx
      rcases x with _ | ⟨f, t⟩
      · exact absurd (by simp) hx
      rw [parseRows_cons_long a b c d e₃ f t xs]
      cases hp : parseRow6 a b c d e₃ f with
      | none => exact ⟨e, he⟩
      | some l =>
        refine ⟨e, ?_⟩
        show Except.map (fun ls => l :: ls) (parseRows xs) = Except.error e
        rw [he]
        rfl

/-! ## Claim theorems -/

/-- C1: re-importing byte-identical content is NOT a no-op.
`upsert_source_file` does return the existing id on a sha256 hit and no
second `SourceFile` row appears, but `sync`'s skip check `if not sf_id:`
can never fire on a real (nonzero) id, so the second import re-parses the
file and inserts its `Lesson` rows again: after syncing two URLs serving
the same bytes the store holds one `SourceFile` row and two copies of the
lesson rows. -/
theorem C1_duplicate_content_reinserted :
    sync (.ok [jobC1a, jobC1b]) Option.none dbSeed = .ok (syncLoop [jobC1a, jobC1b] dbSeed) ∧
    ((syncLoop [jobC1a] dbSeed).committedSources.map (fun r => r.sha256)) = [("h1")] ∧
    (syncLoop [jobC1a] dbSeed).committedLessons.length = 1 ∧
    ((syncLoop [jobC1a, jobC1b] dbSeed).committedSources.map (fun r => r.sha256)) = [("h1")] ∧
    (syncLoop [jobC1a, jobC1b] dbSeed).committedLessons.length = 2 := by
  refine ⟨by decide, by decide, by decide, by decide, by decide⟩

/-- C2 counterexample: in `wbC2` the first (and only) row containing a
group-code token is row 2, yet `parse_excel` reads data from row 2 itself
and parses its lesson, while the spec-described variant (data starting
immediately after the found header row) yields nothing — so `parse_excel`
does not read data "starting at the row immediately after the found header
row". -/
theorem C2_counterexample :
    findFirstTokenRow wbC2 = some 2 ∧
    parseExcel wbC2 = .ok [lessonC2] ∧
    parseExcelSpecC2 wbC2 = .ok [] := by
  refine ⟨by decide, by decide, by decide⟩

/-- C2 (amended): when any of the first 10 rows contains a group-code
token, the header boundary is always row 1 — data rows are read from row 2
onward regardless of which row matched, each row positionally from its
first six columns; consequently the parse result depends only on the rows
from row 2 on. -/
theorem C2_fixed_header_boundary (wb wb₂ : List (List CellValue))
    (h : (wb.take 10).any rowHasGroupToken = true)
    (h₂ : (wb₂.take 10).any rowHasGroupToken = true)
    (heq : wb.drop 1 = wb₂.drop 1) :
    parseExcel wb = parseRows (wb.drop 1) ∧ parseExcel wb = parseExcel wb₂ := by
  constructor
  · simp [parseExcel, h]
  · simp [parseExcel, h, h₂, heq]

/-- C2 witness: the fixed-boundary theorem applied at the concrete workbook `wbC2`. -/
theorem C2_fixed_header_boundary_witness :
    ((wbC2.take 10).any rowHasGroupToken = true) ∧
    (wbC2.drop 1 = wbC2.drop 1) ∧
    (parseExcel wbC2 = parseRows (wbC2.drop 1) ∧ parseExcel wbC2 = parseExcel wbC2) :=
  ⟨by decide, rfl, C2_fixed_header_boundary wbC2 wbC2 (by decide) (by decide) rfl⟩

/-- C3: the workbook parser's `_parse_time` does parse "10:30-12:05" and
"10:30–12:05" to 10:30/12:05, and the shared-sheet loop does silently skip
rows whose time column fails `TIME_RE` — but `TIME_RE` itself is compiled
from a raw string with doubled backslashes, matches only strings starting
with a literal backslash, and therefore rejects BOTH real time strings:
the shared-sheet parser skips every such row and returns no lessons. -/
theorem C3_shared_sheet_time_regex_broken :
    parseTimeCell ("10:30-12:05") = .ok ((10, 30), (12, 5)) ∧
    parseTimeCell ("10:30–12:05") = .ok ((10, 30), (12, 5)) ∧
    timeReMatch ("10:30-12:05") = Option.none ∧
    timeReMatch ("10:30–12:05") = Option.none ∧
    dfToLessons colsC3 [rowC3, rowC3en] = .ok [] := by
  refine ⟨by decide, by decide, by decide, by decide, by decide⟩

/-- C4 counterexample: batch `wbC4a` (known group АБ-12, unknown ВГ-34)
fails with the error naming ВГ-34, and alone file `wbC4b` commits only
"История"; but running `sync` over both files commits "Математика" — a
lesson row of the FAILED batch — because the caught exception leaves the
session's pending rows in place and the next batch's commit persists them:
the failed batch suffers a partial insert. -/
theorem C4_counterexample :
    errOf (processFile jobC4a dbSeed) = some (unknownGroupMsg ("ВГ-34")) ∧
    ((syncLoop [jobC4b] dbSeed).committedLessons.map (fun r => r.subject)) = [("История")] ∧
    ((syncLoop [jobC4a, jobC4b] dbSeed).committedLessons.map (fun r => r.subject)) =
      [("Математика"), ("История")] := by
  refine ⟨by decide, by decide, by decide⟩

/-- C4 (amended): an unknown group code in a batch raises an error naming
an unknown code before the batch's commit, and when the batch runs inside
its own `get_session` transaction (the admin import path) the rollback
leaves the committed lesson rows exactly as they were — no partial insert.
(In the `sync` path, which catches the error and reuses the session,
pending rows can be committed by a later batch, per the counterexample.) -/
theorem C4_unknown_group_atomic_in_session (lessons : List Lesson) (sid : Nat) (db : Db)
    (l : Lesson) (hl : l ∈ lessons)
    (hunk : db.groups.find? (fun g => g.code == l.group_code) = Option.none) :
    ∃ code, (runGetSession (bulkInsertLessons lessons sid) db).1 = some (unknownGroupMsg code) ∧
      db.groups.find? (fun g => g.code == code) = Option.none ∧
      (runGetSession (bulkInsertLessons lessons sid) db).2.committedLessons =
        db.committedLessons := by
  obtain ⟨code, st, hrun, hcode, hcl⟩ :=
    bulkGo_unknown sid lessons emptyCaches db l hl hunk
      (fun p hp => absurd hp (List.not_mem_nil p))
  refine ⟨code, ?_, hcode, ?_⟩
  · show (match bulkGo sid lessons emptyCaches db with
          | .ok db₂ => ((Option.none : Option String), dbCommit db₂)
          | .error p => (some p.1, dbRollback p.2)).1 = some (unknownGroupMsg code)
    rw [hrun]
  · show (match bulkGo sid lessons emptyCaches db with
          | .ok db₂ => ((Option.none : Option String), dbCommit db₂)
          | .error p => (some p.1, dbRollback p.2)).2.committedLessons = db.committedLessons
    rw [hrun]
    exact hcl

/-- C4 witness: the session-scoped atomicity theorem at a concrete
one-lesson batch whose group is not seeded. -/
theorem C4_unknown_group_atomic_in_session_witness :
    (lW4 ∈ [lW4]) ∧
    (emptyDb.groups.find? (fun g => g.code == lW4.group_code) = Option.none) ∧
    (∃ code, (runGetSession (bulkInsertLessons [lW4] 1) emptyDb).1 = some (unknownGroupMsg code) ∧
      emptyDb.groups.find? (fun g => g.code == code) = Option.none ∧
      (runGetSession (bulkInsertLessons [lW4] 1) emptyDb).2.committedLessons =
        emptyDb.committedLessons) :=
  ⟨List.mem_cons_self lW4 [], rfl,
   C4_unknown_group_atomic_in_session [lW4] 1 emptyDb lW4 (List.mem_cons_self lW4 []) rfl⟩

/-- C5 counterexample: a failure of the discovery step (`list_files` runs
inside `sync` but OUTSIDE the per-file `try`) propagates to `sync`'s
caller, so "no error inside the sync orchestrator ever propagates" is
false as stated. -/
theorem C5_counterexample :
    sync (.error ("download failed")) Option.none emptyDb = .error ("download failed") :=
  rfl

/-- C5 (amended): every exception raised while PROCESSING a single
discovered file is caught and the loop continues with the next file on the
session state left behind — a sync run over any successfully discovered
listing always returns normally; only a discovery failure escapes (see the
counterexample). -/
theorem C5_per_file_errors_contained :
    (∀ jobs limit db, ∃ db₂, sync (.ok jobs) limit db = .ok db₂) ∧
    (∀ j rest db e st, processFile j db = .error (e, st) →
      sync (.ok (j :: rest)) Option.none db = sync (.ok rest) Option.none st) := by
  constructor
  · intro jobs limit db
    exact ⟨_, rfl⟩
  · intro j rest db e st h
    show Except.ok (syncLoop (j :: rest) db) = Except.ok (syncLoop rest st)
    have h2 : syncLoop (j :: rest) db = syncLoop rest st := by
      show (match processFile j db with
            | .ok db₂ => syncLoop rest db₂
            | .error p => syncLoop rest p.2) = syncLoop rest st
      rw [h]
    rw [h2]

/-- C5 witness: the containment theorem at a job whose download fails. -/
theorem C5_per_file_errors_contained_witness :
    processFile jobFail emptyDb = .error (("boom"), emptyDb) ∧
    (∃ db₂, sync (.ok [jobFail]) Option.none emptyDb = .ok db₂) ∧
    sync (.ok [jobFail]) Option.none emptyDb = sync (.ok []) Option.none emptyDb :=
  ⟨by decide, C5_per_file_errors_contained.1 [jobFail] Option.none emptyDb,
   C5_per_file_errors_contained.2 jobFail [] emptyDb ("boom") emptyDb rfl⟩

/-- C6: a delimited-text header missing required columns fails with an
error naming exactly the missing required columns, identically for every
list of data rows (so before any row is read or converted), for every
date/time coercion. -/
theorem C6_missing_required_columns (toDT : String → Option PyDate)
    (toTM : String → Option (Nat × Nat)) (cols : List String)
    (rows rows₂ : List (List String)) (hmiss : missingCsvCols cols ≠ []) :
    parseCsv toDT toTM cols rows =
      .error (("CSV missing columns: ") ++ pyJoin (", ") (missingCsvCols cols)) ∧
    parseCsv toDT toTM cols rows = parseCsv toDT toTM cols rows₂ ∧
    (∀ c, c ∈ missingCsvCols cols ↔ c ∈ csvRequired ∧ ¬ c ∈ cols) := by
  have h1 : ∀ rs : List (List String), parseCsv toDT toTM cols rs =
      .error (("CSV missing columns: ") ++ pyJoin (", ") (missingCsvCols cols)) := by
    intro rs
    unfold parseCsv
    rw [if_pos hmiss]
  refine ⟨h1 rows, by rw [h1 rows, h1 rows₂], ?_⟩
  intro c
  simp [missingCsvCols, List.mem_filter, List.contains]

/-- C6 witness: a header lacking `subject` fails naming exactly `subject`. -/
theorem C6_missing_required_columns_witness :
    (missingCsvCols colsW6 ≠ []) ∧
    parseCsv (fun _ => Option.none) (fun _ => Option.none) colsW6 [] =
      .error (("CSV missing columns: subject")) ∧
    (("subject") ∈ missingCsvCols colsW6 ↔ ("subject") ∈ csvRequired ∧ ¬ ("subject") ∈ colsW6) := by
  have h := C6_missing_required_columns (fun _ => Option.none) (fun _ => Option.none)
    colsW6 [] [] (by decide)
  exact ⟨by decide, h.1.trans rfl, h.2.2 ("subject")⟩

/-- C7: the textual pattern does accept "01.09.24" as 2024-09-01, but a
native date/datetime cell is NOT accepted: `map(_safe_str, row[:6])`
stringifies it to ISO form ("2024-09-01"), which fails the D.M.YY[YY]
pattern, so the row is skipped — the `isinstance` branches that were meant
to accept native values are dead code. -/
theorem C7_native_date_cells_skipped :
    parseDateCell ("01.09.24") = some ⟨2024, 9, 1⟩ ∧
    safeStr (CellValue.vDate 2024 9 1) = ("2024-09-01") ∧
    safeStr (CellValue.vDateTime 2024 9 1 0 0 0) = ("2024-09-01 00:00:00") ∧
    parseDateCell ("2024-09-01") = Option.none ∧
    parseExcel wbC7 = .ok [] ∧
    parseExcel wbC7dt = .ok [] := by
  refine ⟨by decide, by decide, by decide, by decide, by decide, by decide⟩

/-- C8: the room key is split at the first hyphen into building and number
when a hyphen is present (the building part is hyphen-free and
concatenating building, hyphen, number restores the key), else the
building is empty and the whole key is the number; in particular "101" ↦
("", "101") and "Б-204" ↦ ("Б", "204"). -/
theorem C8_room_key_parsing (s : String) :
    roomKeySplit ("101") = (("") , ("101")) ∧
    roomKeySplit ("Б-204") = (("Б"), ("204")) ∧
    (s.data.contains '-' = false → roomKeySplit s = (("") , s)) ∧
    (s.data.contains '-' = true →
      (roomKeySplit s).1.data.contains '-' = false ∧
      (roomKeySplit s).1.data ++ '-' :: (roomKeySplit s).2.data = s.data) := by
  refine ⟨rfl, rfl, ?_, ?_⟩
  · intro h
    unfold roomKeySplit
    cases hsp : splitAtFirstHyphen s.data with
    | none => rfl
    | some p =>
      obtain ⟨h1, _⟩ := (splitAtFirstHyphen_spec s.data).1 p.1 p.2 (by rw [hsp])
      exfalso
      have hm : ('-' : Char) ∈ s.data := by
        rw [← h1]
        exact List.mem_append_right _ (List.mem_cons_self _ _)
      have h2 : s.data.contains '-' = true := List.elem_eq_true_of_mem hm
      rw [h2] at h
      exact absurd h (by simp)
  · intro h
    cases hsp : splitAtFirstHyphen s.data with
    | none =>
      have h2 := (splitAtFirstHyphen_spec s.data).2 hsp
      rw [h2] at h
      exact absurd h (by simp)
    | some p =>
      have hr : roomKeySplit s = (String.mk p.1, String.mk p.2) := by
        unfold roomKeySplit
        rw [hsp]
      obtain ⟨h1, h2⟩ := (splitAtFirstHyphen_spec s.data).1 p.1 p.2 (by rw [hsp])
      rw [hr]
      exact ⟨h2, h1⟩

/-- C8 witness: the splitting theorem discharged at both documented keys. -/
theorem C8_room_key_parsing_witness :
    ((("101") : String).data.contains '-' = false ∧ roomKeySplit ("101") = (("") , ("101"))) ∧
    ((("Б-204") : String).data.contains '-' = true ∧
      (roomKeySplit ("Б-204")).1.data.contains '-' = false ∧
      (roomKeySplit ("Б-204")).1.data ++ '-' :: (roomKeySplit ("Б-204")).2.data =
        (("Б-204") : String).data) :=
  ⟨⟨by decide, (C8_room_key_parsing ("101")).2.2.1 (by decide)⟩,
   ⟨by decide, (C8_room_key_parsing ("Б-204")).2.2.2 (by decide)⟩⟩

/-- C10: a workbook data row with fewer than six physical cells makes the
six-way unpacking raise an uncaught error, aborting the parse of the whole
file rather than skipping the row. -/
theorem C10_short_row_aborts (wb : List (List CellValue))
    (hhdr : (wb.take 10).any rowHasGroupToken = true)
    (hshort : ∃ r ∈ wb.drop 1, r.length < 6) :
    ∃ e, parseExcel wb = .error e := by
  obtain ⟨e, he⟩ := parseRows_short (wb.drop 1) hshort
  refine ⟨e, ?_⟩
  have h2 : parseExcel wb = parseRows (wb.drop 1) := by
    simp [parseExcel, hhdr]
  rw [h2]
  exact he

/-- C10 witness: the abort theorem at a concrete workbook whose single
data row has one cell. -/
theorem C10_short_row_aborts_witness :
    ((wbC10.take 10).any rowHasGroupToken = true) ∧
    (∃ r ∈ wbC10.drop 1, r.length < 6) ∧
    (∃ e, parseExcel wbC10 = .error e) :=
  ⟨by decide, ⟨[CellValue.vStr ("01.09.24")], by decide, by decide⟩,
   C10_short_row_aborts wbC10 (by decide) ⟨[CellValue.vStr ("01.09.24")], by decide, by decide⟩⟩

/-- C9 counterexample: the group has a lesson on Wednesday (and only
there), yet the weekly aggregation returns the empty-week sentinel instead
of Wednesday's block — the week loop drops any day whose FORMATTED TEXT
contains the phrase "занятий нет", and this lesson's free-text subject
contains it. -/
theorem C9_counterexample :
    lessonsFor store9c 1 (addDays monday9 2) ≠ [] ∧
    lessonsFor store9c 1 (addDays monday9 0) = [] ∧
    lessonsFor store9c 1 (addDays monday9 1) = [] ∧
    lessonsFor store9c 1 (addDays monday9 3) = [] ∧
    lessonsFor store9c 1 (addDays monday9 4) = [] ∧
    lessonsFor store9c 1 (addDays monday9 5) = [] ∧
    weekText store9c 1 monday9 = ("ℹ️ На этой неделе занятий нет.") := by
  refine ⟨by decide, by decide, by decide, by decide, by decide, by decide, by decide⟩

/-- C9 (amended): the week aggregation covers the 6 days from Monday and
drops a day exactly when its formatted text contains the phrase
"занятий нет" — in particular every day with no lessons is dropped, and a
week with no lessons at all yields the fixed sentinel; a group with
lessons only on Wednesday yields only Wednesday's block PROVIDED that
block does not itself contain the phrase (see the counterexample). -/
theorem C9_week_aggregation (store : List BotLesson) (gid : Nat) (monday : PyDate) :
    ((∀ i, i < 6 → lessonsFor store gid (addDays monday i) = []) →
      weekText store gid monday = ("ℹ️ На этой неделе занятий нет.")) ∧
    ((∀ i, i < 6 → i ≠ 2 → lessonsFor store gid (addDays monday i) = []) →
      containsSub (dayText store gid (addDays monday 2)) markerStr = false →
      weekText store gid monday = dayText store gid (addDays monday 2)) := by
  have hmap : (List.range 6).map (fun i => addDays monday i) =
      [addDays monday 0, addDays monday 1, addDays monday 2, addDays monday 3,
       addDays monday 4, addDays monday 5] := rfl
  constructor
  · intro h
    have h0 := weekDayPick_none store gid (addDays monday 0) (h 0 (by omega))
    have h1 := weekDayPick_none store gid (addDays monday 1) (h 1 (by omega))
    have h2 := weekDayPick_none store gid (addDays monday 2) (h 2 (by omega))
    have h3 := weekDayPick_none store gid (addDays monday 3) (h 3 (by omega))
    have h4 := weekDayPick_none store gid (addDays monday 4) (h 4 (by omega))
    have h5 := weekDayPick_none store gid (addDays monday 5) (h 5 (by omega))
    have ht : weekTexts store gid monday = [] := by
      unfold weekTexts
      rw [hmap, List.filterMap_cons_none h0, List.filterMap_cons_none h1,
          List.filterMap_cons_none h2, List.filterMap_cons_none h3,
          List.filterMap_cons_none h4, List.filterMap_cons_none h5, List.filterMap_nil]
    unfold weekText
    rw [ht]
    rfl
  · intro h hm
    have h0 := weekDayPick_none store gid (addDays monday 0) (h 0 (by omega) (by omega))
    have h1 := weekDayPick_none store gid (addDays monday 1) (h 1 (by omega) (by omega))
    have h2 := weekDayPick_some store gid (addDays monday 2) hm
    have h3 := weekDayPick_none store gid (addDays monday 3) (h 3 (by omega) (by omega))
    have h4 := weekDayPick_none store gid (addDays monday 4) (h 4 (by omega) (by omega))
    have h5 := weekDayPick_none store gid (addDays monday 5) (h 5 (by omega) (by omega))
    have ht : weekTexts store gid monday = [dayText store gid (addDays monday 2)] := by
      unfold weekTexts
      rw [hmap, List.filterMap_cons_none h0, List.filterMap_cons_none h1,
          List.filterMap_cons_some h2, List.filterMap_cons_none h3,
          List.filterMap_cons_none h4, List.filterMap_cons_none h5, List.filterMap_nil]
    unfold weekText
    rw [ht]
    rfl

/-- C9 witness: the aggregation theorem at a store whose only lesson is an
ordinary Wednesday lesson. -/
theorem C9_week_aggregation_witness :
    (∀ i, i < 6 → i ≠ 2 → lessonsFor storeW9 2 (addDays monday9 i) = []) ∧
    containsSub (dayText storeW9 2 (addDays monday9 2)) markerStr = false ∧
    weekText storeW9 2 monday9 = dayText storeW9 2 (addDays monday9 2) :=
  ⟨by decide, by decide,
   (C9_week_aggregation storeW9 2 monday9).2 (by decide) (by decide)⟩

end GuuBot
